import Mathlib

/-! Shallow embedding of `hacs-govee-bluetooth-lights` (Python) in Lean 4.

The Python code manipulates BLE frames through lowercase hex strings
(`bytes.hex()`, `bytes.fromhex`, string slicing).  For bytes `b < 256`
the hex string of a byte sequence is exactly the concatenation of the
two hex digits `b / 16` and `b % 16` of each byte, so a slice
`response[2*i : 2*i+2]` is the digit pair of byte `i`.  The embedding
therefore works directly on `List ℕ` of byte values, translating every
string-level operation of the source into the corresponding byte-level
operation, with the digit pairs made explicit where the source inspects
them (`.isdigit()`, `== "01"`, `int(s, 16)`).

Python float arithmetic appears in two places:
* brightness: `math.ceil(64 * (p / 100))` for `1 ≤ p ≤ 100` and
  `round((b / 64) * 100)` for `0 ≤ b ≤ 255`.  Both were checked to agree
  exactly with the rational computations used here (`p / 100` is exact
  for the only integer-crossing inputs 25/50/75/100, and `25*b/16` is a
  dyadic rational far below the 53-bit mantissa limit), with Python's
  `round` being round-half-to-even (`pyRound` below).
* the black-body color math (`math.log`, float `**`): these
  transcendental functions are modelled as explicit function parameters
  `log rpow : ℚ → ℚ`, so every theorem about the color math is
  universally quantified over whatever values the float library
  produces; counterexamples instantiate them with rationals accurate to
  the true values.

Python exceptions (`ValueError` from `int("", 16)`) are modelled with
`Except Unit`; a Python function falling off its end returns `None`,
modelled as `Option.none`.
-/

namespace Govee

/-! Frame codec: checksum and payload.
Source: `govee/ble_requests.py`, `ble_get_checksum` / `ble_get_payload`
(the byte-identical duplicates live in `ble_light_controller.py`
(`_get_checksum` / `_get_command`) and `helper.py` (`ble_get_checksum` /
`ble_get_command`)).  The Python parses the hex command string into
`hex_values : List[int]` and XOR-folds it starting from `hex_values[0]`;
an empty command would raise `IndexError`, hence `Option`. -/

def ble_get_checksum : List ℕ → Option ℕ
  | [] => none
  | h :: t => some (t.foldl (· ^^^ ·) h)

def ble_get_payload (command : List ℕ) : Option (List ℕ) :=
  (ble_get_checksum command).map (fun checksum => command ++ [checksum])

/-- XOR-reduction of a byte list, the spec's notion of checksum. -/
def xorReduce (l : List ℕ) : ℕ := l.foldl (· ^^^ ·) 0

theorem foldl_xor_eq (l : List ℕ) (a : ℕ) :
    l.foldl (· ^^^ ·) a = a ^^^ xorReduce l := by
  induction l generalizing a with
  | nil => simp [xorReduce]
  | cons h t ih =>
    simp only [List.foldl_cons, xorReduce]
    rw [ih (a ^^^ h), ih (0 ^^^ h)]
    simp [Nat.xor_assoc]

theorem ble_get_checksum_eq_xorReduce (h : ℕ) (t : List ℕ) :
    ble_get_checksum (h :: t) = some (xorReduce (h :: t)) := by
  simp [ble_get_checksum, xorReduce, foldl_xor_eq t h, foldl_xor_eq t (0 ^^^ h)]

/-! Brightness encoding.
Source: `govee/ble_requests.py`, `BleLightRequestFactory.create_brightness_request`
and the identical pipeline in `ble_light_controller.py`,
`BleLightController.set_brightness`:
```
brightness = str(math.ceil(64 * (brightness_percent / 100))).zfill(2)
brightness = "01" if brightness == "00" else brightness
command = "3304" + brightness + "000...0"
```
The *decimal* string of `ceil(64*p/100)` is spliced into the hex
command, so the byte that ends up in the frame is that decimal numeral
reinterpreted in base 16. -/

/-- Value of `math.ceil(64 * (p / 100))`, exact for `p ≤ 100` (see header). -/
def brightnessDeviceValue (p : ℕ) : ℕ := (64 * p + 99) / 100

/-- The `"01" if brightness == "00" else brightness` clamp, acting on the
value the two-digit decimal string denotes. -/
def brightnessClamped (p : ℕ) : ℕ :=
  if brightnessDeviceValue p = 0 then 1 else brightnessDeviceValue p

/-- Reading the two decimal digits of `v ≤ 99` as hexadecimal digits:
`int(str(v).zfill(2), 16)`. -/
def decimalAsHexByte (v : ℕ) : ℕ := 16 * (v / 10) + v % 10

def create_brightness_command (p : ℕ) : List ℕ :=
  [0x33, 0x04, decimalAsHexByte (brightnessClamped p)] ++ List.replicate 16 0

/-- Factory `BleLightRequestFactory.create_brightness_request`; `none` models the
`ValueError` raised outside `1..=100`. -/
def create_brightness_request (p : ℕ) : Option (List ℕ) :=
  if 1 ≤ p ∧ p ≤ 100 then ble_get_payload (create_brightness_command p) else none

/-- Controller `BleLightController.set_brightness` builds its frame through the
textually identical string pipeline and `_get_command`. -/
def set_brightness (p : ℕ) : Option (List ℕ) :=
  if p < 1 ∨ p > 100 then none
  else ble_get_payload ([0x33, 0x04, decimalAsHexByte (brightnessClamped p)]
    ++ List.replicate 16 0)

/-! Python round (round half to even) on exact rationals. -/

def pyRound (q : ℚ) : ℤ :=
  let fl := ⌊q⌋
  let frac := q - fl
  if frac < 1 / 2 then fl
  else if 1 / 2 < frac then fl + 1
  else if fl % 2 = 0 then fl else fl + 1

/-- Rounding `pyRound` of the fraction `n / d`, computed with integer arithmetic
so that the kernel can evaluate it (`pyRoundFrac_eq_pyRound` below shows
the two agree for `0 < d`). -/
def pyRoundFrac (n : ℤ) (d : ℕ) : ℤ :=
  let fl := n / (d : ℤ)
  let r := n - fl * d
  if 2 * r < (d : ℤ) then fl
  else if (d : ℤ) < 2 * r then fl + 1
  else if fl % 2 = 0 then fl else fl + 1

theorem pyRoundFrac_eq_pyRound (n : ℤ) (d : ℕ) (hd : 0 < d) :
    pyRoundFrac n d = pyRound ((n : ℚ) / (d : ℚ)) := by
  have hdq : (0 : ℚ) < (d : ℚ) := by exact_mod_cast hd
  have hfl : ⌊(n : ℚ) / (d : ℚ)⌋ = n / (d : ℤ) := Rat.floor_intCast_div_natCast n d
  unfold pyRoundFrac pyRound
  rw [hfl]
  have hlt : ((n : ℚ) / (d : ℚ) - ((n / (d : ℤ) : ℤ) : ℚ) < 1 / 2)
      ↔ (2 * (n - n / (d : ℤ) * (d : ℤ)) < (d : ℤ)) := by
    rw [sub_lt_iff_lt_add, div_lt_iff₀ hdq]
    constructor
    · intro h
      have h2 : ((2 * n : ℤ) : ℚ) < (((d : ℤ) + 2 * (n / (d : ℤ) * (d : ℤ)) : ℤ) : ℚ) := by
        push_cast
        nlinarith
      have h3 : (2 * n : ℤ) < (d : ℤ) + 2 * (n / (d : ℤ) * (d : ℤ)) := by exact_mod_cast h2
      omega
    · intro h
      have h3 : (2 * n : ℤ) < (d : ℤ) + 2 * (n / (d : ℤ) * (d : ℤ)) := by omega
      have h2 : ((2 * n : ℤ) : ℚ) < (((d : ℤ) + 2 * (n / (d : ℤ) * (d : ℤ)) : ℤ) : ℚ) := by
        exact_mod_cast h3
      push_cast at h2
      nlinarith
  have hgt : (1 / 2 < (n : ℚ) / (d : ℚ) - ((n / (d : ℤ) : ℤ) : ℚ))
      ↔ ((d : ℤ) < 2 * (n - n / (d : ℤ) * (d : ℤ))) := by
    rw [lt_sub_iff_add_lt, lt_div_iff₀ hdq]
    constructor
    · intro h
      have h2 : (((d : ℤ) + 2 * (n / (d : ℤ) * (d : ℤ)) : ℤ) : ℚ) < ((2 * n : ℤ) : ℚ) := by
        push_cast
        nlinarith
      have h3 : (d : ℤ) + 2 * (n / (d : ℤ) * (d : ℤ)) < (2 * n : ℤ) := by exact_mod_cast h2
      omega
    · intro h
      have h3 : (d : ℤ) + 2 * (n / (d : ℤ) * (d : ℤ)) < (2 * n : ℤ) := by omega
      have h2 : (((d : ℤ) + 2 * (n / (d : ℤ) * (d : ℤ)) : ℤ) : ℚ) < ((2 * n : ℤ) : ℚ) := by
        exact_mod_cast h3
      push_cast at h2
      nlinarith
  simp only [hlt, hgt]

/-! Status-reply decoders.
Source: `govee/helper.py`, `ResponseProcessor`.  Each decoder works on
`event.response.hex()`; `startswith("aaXX")` on the hex string of a byte
list is: at least two bytes, byte 0 = `0xAA`, byte 1 = `XX`. -/

deriving instance DecidableEq for Except

def startsWithClass (cls : ℕ) : List ℕ → Bool
  | b0 :: b1 :: _ => b0 == 0xaa && b1 == cls
  | _ => false

/-- Decoder `ResponseProcessor.process_power_state_status_request`.
`response[4:6] == "01"` compares the hex-digit pair of byte 2 (the empty
slice of a truncated reply compares unequal, yielding `False`). -/
def process_power_state_status_request (resp : List ℕ) : Option Bool :=
  if startsWithClass 0x01 resp then
    some (match resp.get? 2 with
      | some b2 => b2 == 1
      | none => false)
  else none

/-- Decoder `ResponseProcessor.process_brightness_status_request`.
`response[4:6]` is the hex-digit pair of byte 2; on a 2-byte reply the
slice is empty, `"".isdigit()` is `False`, and `int("", 16)` raises
`ValueError` (`Except.error`).  `isdigit` holds exactly when both hex
digits of the byte are decimal digits, in which case the pair is read in
base 10, otherwise in base 16. -/
def process_brightness_status_request (resp : List ℕ) : Except Unit (Option ℤ) :=
  if startsWithClass 0x04 resp then
    match resp.get? 2 with
    | none => .error ()
    | some b =>
      let h1 := b / 16
      let h0 := b % 16
      let value : ℕ := if h1 ≤ 9 ∧ h0 ≤ 9 then 10 * h1 + h0 else b
      let percent := pyRoundFrac ((value : ℤ) * 100) 64
      .ok (some (if percent = 0 then 1 else percent))
  else .ok none

/-! Color math.
Source: `govee/helper.py`, `kelvin_to_rgb`, and the duplicated color
math inside `helper.py`, `kelvin_to_hex`.  `math.log` and the float
power `(temp - 60) ** e` are modelled as function parameters
`log : ℚ → ℚ` and `rpow : ℚ → ℚ → ℚ` (base, exponent). -/

def clamp255 (x : ℚ) : ℚ := max 0 (min x 255)

/-- Truncation toward zero, `int(x)`, applied to the clamped (hence
non-negative) channel values. -/
def pyTrunc (x : ℚ) : ℤ := if 0 ≤ x then ⌊x⌋ else -⌊-x⌋

/-- Raw piecewise black-body channel values before clamping/rounding,
shared verbatim by `kelvin_to_rgb` and `kelvin_to_hex`. -/
def blackBodyRaw (log : ℚ → ℚ) (rpow : ℚ → ℚ → ℚ) (kelvin : ℕ) : ℚ × ℚ × ℚ :=
  let temp : ℚ := (kelvin : ℚ) / 100
  if temp ≤ 66 then
    let green := 99.4708025861 * log temp - 161.1195681661
    let blue : ℚ :=
      if temp ≤ 19 then 0 else 138.5177312231 * log (temp - 10) - 305.0447927307
    (255, green, blue)
  else
    (329.698727446 * rpow (temp - 60) (-0.1332047592),
     288.1221695283 * rpow (temp - 60) (-0.0755148492), 255)

/-- Function `kelvin_to_rgb` of `govee/helper.py`: clamp each channel to `[0, 255]`,
then `math.ceil`. -/
def kelvin_to_rgb (log : ℚ → ℚ) (rpow : ℚ → ℚ → ℚ) (kelvin : ℕ) : ℤ × ℤ × ℤ :=
  let raw := blackBodyRaw log rpow kelvin
  (⌈clamp255 raw.1⌉, ⌈clamp255 raw.2.1⌉, ⌈clamp255 raw.2.2⌉)

/-- The color math inside `helper.py` `kelvin_to_hex`: identical raw
values and clamp, but the channels are passed through `int(...)`
(truncation), not `math.ceil`. -/
def kelvin_to_hex_channels (log : ℚ → ℚ) (rpow : ℚ → ℚ → ℚ) (kelvin : ℕ) : ℤ × ℤ × ℤ :=
  let raw := blackBodyRaw log rpow kelvin
  (pyTrunc (clamp255 raw.1), pyTrunc (clamp255 raw.2.1), pyTrunc (clamp255 raw.2.2))

/-- Decoded color state (`govee/helper.py`, `ColorResponse`). -/
structure ColorResponse where
  color_rgb : ℤ × ℤ × ℤ
  color_temp_kelvin : ℕ
deriving DecidableEq

/-- Decoder `ResponseProcessor.process_color_status_request`.
`int(response[12:16], 16)` reads the hex digits of bytes 6-7: on a reply
of at most 6 bytes the slice is empty and `int` raises `ValueError`; on
a 7-byte reply only byte 6's digit pair is present.  When the kelvin
field is 0 the reply has at least 7 bytes, so `response[6:12]`
(bytes 3-5) is fully populated. -/
def process_color_status_request (log : ℚ → ℚ) (rpow : ℚ → ℚ → ℚ)
    (resp : List ℕ) : Except Unit (Option ColorResponse) :=
  if startsWithClass 0x05 resp then
    match resp.get? 6 with
    | none => .error ()
    | some b6 =>
      let kelvin : ℕ := match resp.get? 7 with
        | some b7 => 256 * b6 + b7
        | none => b6
      if kelvin > 0 then
        .ok (some ⟨kelvin_to_rgb log rpow kelvin, kelvin⟩)
      else
        .ok (some ⟨((resp.getD 3 0 : ℤ), (resp.getD 4 0 : ℤ), (resp.getD 5 0 : ℤ)), 0⟩)
  else .ok none

/-! Color-temperature encoding.
Source: `govee/ble_requests.py`,
`BleLightRequestFactory.create_color_temperature_request` (validates
`2000 ≤ k ≤ 6500`, raising `ValueError` otherwise) and
`ble_light_controller.py`, `BleLightController.set_color_temperature`
(clamps to `[2700, 6500]` and never raises).  Both then splice
`hex(k)[2:].zfill(4)` — the 16-bit big-endian field — after the
`33 05 0d ff ff ff` header. -/

def create_color_temperature_command (k : ℕ) : List ℕ :=
  [0x33, 0x05, 0x0d, 0xff, 0xff, 0xff, k / 256, k % 256] ++ List.replicate 11 0

def create_color_temperature_request (k : ℤ) : Option (List ℕ) :=
  if 2000 ≤ k ∧ k ≤ 6500 then
    ble_get_payload (create_color_temperature_command k.toNat)
  else none

def set_color_temperature (k : ℤ) : Option (List ℕ) :=
  let k' : ℤ := if k < 2700 then 2700 else if k > 6500 then 6500 else k
  ble_get_payload (create_color_temperature_command k'.toNat)

/-! Send retry loop.
Source: `govee/ble_client.py`, `BleClient.send_request`: a `while
counter < MAX_SEND_RETRIES` loop that returns the `ResponseEvent` of the
first attempt that does not raise `BleakError`, increments `counter` on
each `BleakError`, and falls off the end of the function — returning
Python `None` — once the counter reaches the bound.  `attempt i` models
the outcome of `_send_request_to_device` on the i-th iteration; the
second component of the result counts the attempts actually made. -/

def MAX_SEND_RETRIES : ℕ := 2

def send_request_from {E : Type} (attempt : ℕ → Except Unit E) (counter : ℕ) :
    Option E × ℕ :=
  if counter < MAX_SEND_RETRIES then
    match attempt counter with
    | .ok e => (some e, counter + 1)
    | .error _ => send_request_from attempt (counter + 1)
  else (none, counter)
termination_by MAX_SEND_RETRIES - counter
decreasing_by omega

def send_request {E : Type} (attempt : ℕ → Except Unit E) : Option E :=
  (send_request_from attempt 0).1

def send_request_attempts {E : Type} (attempt : ℕ → Except Unit E) : ℕ :=
  (send_request_from attempt 0).2

/-! Write-characteristic lookup.
Source: `helper.py`, `ble_get_write_characteristic`, and
`ble_light_controller.py`, `BleLightController._get_write_characteristic`
(same nested loops plus an instance-level cache).  Both fall off the end
of the loops — returning Python `None` — when no service/characteristic
matches.  The UUID constants live in `const.py`, which is not part of
the sources (the controller hardcodes the service UUID inline), so the
lookups are parametrised by the UUID strings. -/

structure BleCharacteristic where
  uuid : String
deriving DecidableEq

structure BleService where
  uuid : String
  characteristics : List BleCharacteristic

def GOVEE_SERVICE_UUID : String := "00010203-0405-0607-0809-0a0b0c0d1910"

def findCharacteristic (writeChar : String) :
    List BleCharacteristic → Option BleCharacteristic
  | [] => none
  | c :: cs => if c.uuid = writeChar then some c else findCharacteristic writeChar cs

def ble_get_write_characteristic (serviceUuid writeChar : String) :
    List BleService → Option BleCharacteristic
  | [] => none
  | s :: rest =>
    if s.uuid = serviceUuid then
      match findCharacteristic writeChar s.characteristics with
      | some c => some c
      | none => ble_get_write_characteristic serviceUuid writeChar rest
    else ble_get_write_characteristic serviceUuid writeChar rest

/-- Method `BleLightController._get_write_characteristic`: returns the cached
characteristic when present, otherwise searches (service UUID hardcoded
to `GOVEE_SERVICE_UUID` in the source) and caches a hit; returns the
result together with the cache state it leaves behind. -/
def controller_get_write_characteristic (writeChar : String)
    (cached : Option BleCharacteristic) (services : List BleService) :
    Option BleCharacteristic × Option BleCharacteristic :=
  match cached with
  | some c => (some c, some c)
  | none =>
    match ble_get_write_characteristic GOVEE_SERVICE_UUID writeChar services with
    | some c => (some c, some c)
    | none => (none, none)

end Govee

namespace Govee

theorem xorReduce_append (l₁ l₂ : List ℕ) :
    xorReduce (l₁ ++ l₂) = xorReduce l₁ ^^^ xorReduce l₂ := by
  simp only [xorReduce, List.foldl_append]
  exact foldl_xor_eq l₂ (xorReduce l₁)

/-- C2: for every 19-byte command, `ble_get_payload` returns a 20-byte
frame whose last byte is the XOR-reduction of the 19 command bytes, and
XOR-reducing the whole 20-byte frame (checksum included) yields 0. -/
theorem C2_checksum_self_verifying (cmd : List ℕ) (hlen : cmd.length = 19)
    (hbytes : ∀ b ∈ cmd, b < 256) :
    ∃ frame, ble_get_payload cmd = some frame ∧ frame.length = 20 ∧
      frame.getLast? = some (xorReduce cmd) ∧ xorReduce frame = 0 := by
  obtain ⟨h, t, rfl⟩ : ∃ h t, cmd = h :: t := by
    cases cmd with
    | nil => simp at hlen
    | cons h t => exact ⟨h, t, rfl⟩
  refine ⟨(h :: t) ++ [xorReduce (h :: t)], ?_, ?_, ?_, ?_⟩
  · simp [ble_get_payload, ble_get_checksum_eq_xorReduce]
  · simpa using hlen
  · exact List.getLast?_concat _
  · rw [xorReduce_append]
    simp [xorReduce]

theorem C2_witness :
    ∃ frame,
      ble_get_payload [0x33, 0x01, 0x01, 0, 0, 0, 0, 0, 0, 0, 0, 0, 0, 0, 0, 0, 0, 0, 0]
        = some frame ∧
      frame.length = 20 ∧
      frame.getLast? = some
        (xorReduce [0x33, 0x01, 0x01, 0, 0, 0, 0, 0, 0, 0, 0, 0, 0, 0, 0, 0, 0, 0, 0]) ∧
      xorReduce frame = 0 :=
  C2_checksum_self_verifying
    [0x33, 0x01, 0x01, 0, 0, 0, 0, 0, 0, 0, 0, 0, 0, 0, 0, 0, 0, 0, 0]
    (by decide) (by decide)

/-- C1 fails as stated: at `p = 100` the claimed third byte is
`ceil(64 * 100 / 100) = 64`, but both encoders put `0x64 = 100` into the
frame (the decimal numeral `"64"` is spliced into a hex string). -/
theorem C1_counterexample :
    ((create_brightness_request 100).bind fun f => f.get? 2) = some 100 ∧
    ((set_brightness 100).bind fun f => f.get? 2) = some 100 ∧
    brightnessDeviceValue 100 = 64 ∧ (100 : ℕ) ≠ 64 := by
  decide

set_option maxRecDepth 10000 in
/-- C1 (amended): for every percent `p` in `1..=100`, both brightness
encoders produce the same frame, whose third byte is the decimal
numeral of `max 1 (ceil(64 * p / 100))` reinterpreted as a hexadecimal
digit pair, i.e. `16 * (v / 10) + v % 10` for `v = max 1 (ceil(64 * p / 100))`
(which equals `v` itself only when `v ≤ 9`). -/
theorem C1_brightness_byte (p : ℕ) (h1 : 1 ≤ p) (h2 : p ≤ 100) :
    ((create_brightness_request p).bind fun f => f.get? 2)
        = some (decimalAsHexByte (max 1 (brightnessDeviceValue p))) ∧
    create_brightness_request p = set_brightness p ∧
    (create_brightness_request p).isSome = true := by
  have key : ∀ q ∈ Finset.Icc 1 100,
      ((create_brightness_request q).bind fun f => f.get? 2)
          = some (decimalAsHexByte (max 1 (brightnessDeviceValue q))) ∧
      create_brightness_request q = set_brightness q ∧
      (create_brightness_request q).isSome = true := by decide
  exact key p (Finset.mem_Icc.mpr ⟨h1, h2⟩)

theorem C1_witness :
    ((create_brightness_request 50).bind fun f => f.get? 2)
        = some (decimalAsHexByte (max 1 (brightnessDeviceValue 50))) ∧
    create_brightness_request 50 = set_brightness 50 ∧
    (create_brightness_request 50).isSome = true :=
  C1_brightness_byte 50 (by decide) (by decide)

/-- A 20-byte `aa04` status reply carrying the brightness byte that the
encoder produced for percent `p`. -/
def brightness_reply (p : ℕ) : List ℕ :=
  [0xaa, 0x04, decimalAsHexByte (brightnessClamped p)] ++ List.replicate 17 0

set_option maxRecDepth 10000 in
theorem brightness_roundtrip_key :
    ∀ p ∈ Finset.Icc (1 : ℕ) 100,
      (match process_brightness_status_request (brightness_reply p) with
        | .ok (some pct) => ((pct - (p : ℤ)).natAbs ≤ 2 ∧ pct ≠ 0 : Bool)
        | _ => false) = true := by
  decide

set_option maxRecDepth 10000 in
/-- C3: for every percent `p` in `1..=100`, feeding the encoded
brightness byte back through `process_brightness_status_request` as an
`aa04` status reply yields a percent within ±2 of `p` and never 0. -/
theorem C3_brightness_roundtrip (p : ℕ) (h1 : 1 ≤ p) (h2 : p ≤ 100) :
    ∃ pct : ℤ, process_brightness_status_request (brightness_reply p) = .ok (some pct) ∧
      (pct - (p : ℤ)).natAbs ≤ 2 ∧ pct ≠ 0 := by
  have hb := brightness_roundtrip_key p (Finset.mem_Icc.mpr ⟨h1, h2⟩)
  revert hb
  cases hres : process_brightness_status_request (brightness_reply p) with
  | error e => simp
  | ok o =>
    cases o with
    | none => simp
    | some pct =>
      intro hb
      refine ⟨pct, rfl, ?_⟩
      simpa using hb

theorem C3_witness :
    ∃ pct : ℤ, process_brightness_status_request (brightness_reply 37) = .ok (some pct) ∧
      (pct - (37 : ℤ)).natAbs ≤ 2 ∧ pct ≠ 0 :=
  C3_brightness_roundtrip 37 (by decide) (by decide)

/-- C8 fails as stated: a structurally valid `aa04` reply whose
brightness byte is `0xFF` decodes to percent 398, far outside `1..=100`. -/
theorem C8_counterexample :
    process_brightness_status_request ([0xaa, 0x04, 0xff] ++ List.replicate 17 0)
        = .ok (some 398) ∧ ¬ ((398 : ℤ) ≤ 100) := by
  decide

set_option maxRecDepth 10000 in
theorem brightness_decode_range_key :
    ∀ b ∈ Finset.range 256,
      (match process_brightness_status_request ([0xaa, 0x04, b] ++ List.replicate 17 0) with
        | .ok (some pct) => (1 ≤ pct ∧ pct ≤ 398 : Bool)
        | _ => false) = true := by
  decide

set_option maxRecDepth 10000 in
/-- C8 (amended): for every structurally valid `aa04` reply with
brightness byte `0x00..0xFF`, the decoded percent lies within `1..=398`
(the upper bound 100 of the claim only holds when the interpreted
brightness value is at most 64). -/
theorem C8_brightness_decode_range (b : ℕ) (hb : b < 256) :
    ∃ pct : ℤ,
      process_brightness_status_request ([0xaa, 0x04, b] ++ List.replicate 17 0)
          = .ok (some pct) ∧ 1 ≤ pct ∧ pct ≤ 398 := by
  have hk := brightness_decode_range_key b (Finset.mem_range.mpr hb)
  revert hk
  cases hres : process_brightness_status_request ([0xaa, 0x04, b] ++ List.replicate 17 0) with
  | error e => simp
  | ok o =>
    cases o with
    | none => simp
    | some pct =>
      intro hk
      refine ⟨pct, rfl, ?_⟩
      simpa using hk

theorem C8_witness :
    ∃ pct : ℤ,
      process_brightness_status_request ([0xaa, 0x04, 0x40] ++ List.replicate 17 0)
          = .ok (some pct) ∧ 1 ≤ pct ∧ pct ≤ 398 :=
  C8_brightness_decode_range 0x40 (by decide)

/-- C7 fails as stated: no `MalformedResponse` error exists anywhere in
the sources.  A truncated 2-byte `aa01` power reply is silently decoded
as `False` ("power off") — a defaulted value, not an error — while
truncated `aa04` / `aa05` replies raise a bare `ValueError` out of
`int("", 16)`. -/
theorem C7_counterexample :
    process_power_state_status_request [0xaa, 0x01] = some false ∧
    process_brightness_status_request [0xaa, 0x04] = .error () ∧
    process_color_status_request (fun _ => 0) (fun _ _ => 0) [0xaa, 0x05]
        = .error () := by
  decide

/-- C7 (amended): on inputs shorter than the minimum frame length of
their class, the decoders do not produce a `MalformedResponse` (no such
error exists): the power decoder silently coerces any `aa01` reply of
fewer than 3 bytes to `False`; the brightness decoder raises a plain
`ValueError` on an `aa04` reply of fewer than 3 bytes; the color decoder
raises a plain `ValueError` on an `aa05` reply of fewer than 7 bytes. -/
theorem C7_short_input_behaviour :
    (∀ resp : List ℕ, startsWithClass 0x01 resp = true → resp.length < 3 →
      process_power_state_status_request resp = some false) ∧
    (∀ resp : List ℕ, startsWithClass 0x04 resp = true → resp.length < 3 →
      process_brightness_status_request resp = .error ()) ∧
    (∀ (log : ℚ → ℚ) (rpow : ℚ → ℚ → ℚ) (resp : List ℕ),
      startsWithClass 0x05 resp = true → resp.length < 7 →
      process_color_status_request log rpow resp = .error ()) := by
  refine ⟨?_, ?_, ?_⟩
  · intro resp h hlen
    have h2 : resp[2]? = none := List.getElem?_eq_none (by omega)
    simp [process_power_state_status_request, h, h2]
  · intro resp h hlen
    have h2 : resp[2]? = none := List.getElem?_eq_none (by omega)
    simp [process_brightness_status_request, h, h2]
  · intro log rpow resp h hlen
    have h6 : resp[6]? = none := List.getElem?_eq_none (by omega)
    simp [process_color_status_request, h, h6]

theorem C7_witness :
    process_power_state_status_request [0xaa, 0x01] = some false ∧
    process_brightness_status_request [0xaa, 0x04] = .error () ∧
    process_color_status_request (fun _ => 1) (fun _ _ => 1) [0xaa, 0x05, 0, 0, 0, 0]
        = .error () :=
  ⟨C7_short_input_behaviour.1 [0xaa, 0x01] (by decide) (by decide),
   C7_short_input_behaviour.2.1 [0xaa, 0x04] (by decide) (by decide),
   C7_short_input_behaviour.2.2 (fun _ => 1) (fun _ _ => 1)
     [0xaa, 0x05, 0, 0, 0, 0] (by decide) (by decide)⟩

/-- C4: decoding a (well-formed, at-least-8-byte) `aa05` color reply
returns RGB computed purely by `kelvin_to_rgb` from the 16-bit kelvin
field at bytes 6-7 whenever that field is positive — the literal RGB
bytes 3-5 (`b3 b4 b5` below) do not appear in that branch — and returns
the literal RGB from bytes 3-5 with kelvin 0 when the field is 0. -/
theorem C4_color_decode (log : ℚ → ℚ) (rpow : ℚ → ℚ → ℚ)
    (b2 b3 b4 b5 b6 b7 : ℕ) (rest : List ℕ)
    (_hbytes : ∀ b ∈ 0xaa :: 0x05 :: b2 :: b3 :: b4 :: b5 :: b6 :: b7 :: rest, b < 256) :
    (0 < 256 * b6 + b7 →
      process_color_status_request log rpow
          (0xaa :: 0x05 :: b2 :: b3 :: b4 :: b5 :: b6 :: b7 :: rest)
        = .ok (some ⟨kelvin_to_rgb log rpow (256 * b6 + b7), 256 * b6 + b7⟩)) ∧
    (256 * b6 + b7 = 0 →
      process_color_status_request log rpow
          (0xaa :: 0x05 :: b2 :: b3 :: b4 :: b5 :: b6 :: b7 :: rest)
        = .ok (some ⟨((b3 : ℤ), (b4 : ℤ), (b5 : ℤ)), 0⟩)) := by
  constructor
  · intro hk
    simp [process_color_status_request, startsWithClass, hk]
  · intro hk
    simp [process_color_status_request, startsWithClass, hk]

theorem C4_witness :
    process_color_status_request (fun _ => 0) (fun _ _ => 0)
        (0xaa :: 0x05 :: 0x0d :: 0x11 :: 0x22 :: 0x33 :: 0x19 :: 0x64 :: List.replicate 12 0)
      = .ok (some ⟨kelvin_to_rgb (fun _ => 0) (fun _ _ => 0) 6500, 6500⟩) ∧
    process_color_status_request (fun _ => 0) (fun _ _ => 0)
        (0xaa :: 0x05 :: 0x0d :: 0x11 :: 0x22 :: 0x33 :: 0x00 :: 0x00 :: List.replicate 12 0)
      = .ok (some ⟨((0x11 : ℤ), (0x22 : ℤ), (0x33 : ℤ)), 0⟩) :=
  ⟨(C4_color_decode (fun _ => 0) (fun _ _ => 0) 0x0d 0x11 0x22 0x33 0x19 0x64
      (List.replicate 12 0) (by decide)).1 (by decide),
   (C4_color_decode (fun _ => 0) (fun _ _ => 0) 0x0d 0x11 0x22 0x33 0x00 0x00
      (List.replicate 12 0) (by decide)).2 (by decide)⟩

theorem ble_get_payload_color_temperature (m : ℕ) :
    ble_get_payload (create_color_temperature_command m)
      = some (create_color_temperature_command m
          ++ [xorReduce (create_color_temperature_command m)]) := by
  simp only [create_color_temperature_command, List.cons_append, List.nil_append,
    ble_get_payload, ble_get_checksum_eq_xorReduce, Option.map_some']

/-- C5 fails as stated: the factory *rejects* kelvin 1999 (raising
`ValueError`) instead of clamping it, and the controller clamps to
`[2700, 6500]`, not `[2000, 6500]`: input 2000 is encoded as 2700
(bytes `0a 8c`), not as 2000. -/
theorem C5_counterexample :
    create_color_temperature_request 1999 = none ∧
    ((set_color_temperature 2000).bind fun f => f[6]?) = some 0x0a ∧
    ((set_color_temperature 2000).bind fun f => f[7]?) = some 0x8c ∧
    256 * 0x0a + 0x8c = 2700 ∧ (2700 : ℕ) ≠ 2000 := by
  decide

/-- C5 (amended): the controller's `set_color_temperature` never rejects
its input: it clamps kelvin to `[2700, 6500]` (not `[2000, 6500]`) and
encodes the clamped value big-endian at bytes 6-7 of the frame, with the
RGB bytes 3-5 set to the `ffffff` sentinel; the factory's
`create_color_temperature_request` instead accepts exactly the inputs in
`[2000, 6500]`, rejecting the rest with `ValueError` rather than
clamping. -/
theorem C5_color_temperature_encoding (k : ℤ) :
    (∃ frame, set_color_temperature k = some frame ∧ frame.length = 20 ∧
      frame[3]? = some 0xff ∧ frame[4]? = some 0xff ∧ frame[5]? = some 0xff ∧
      frame[6]? = some ((max 2700 (min k 6500)).toNat / 256) ∧
      frame[7]? = some ((max 2700 (min k 6500)).toNat % 256) ∧
      256 * ((max 2700 (min k 6500)).toNat / 256) + (max 2700 (min k 6500)).toNat % 256
        = (max 2700 (min k 6500)).toNat) ∧
    ((create_color_temperature_request k).isSome = true ↔ 2000 ≤ k ∧ k ≤ 6500) := by
  constructor
  · have hk' : (if k < 2700 then (2700 : ℤ) else if k > 6500 then 6500 else k)
        = max 2700 (min k 6500) := by
      split_ifs <;> omega
    refine ⟨create_color_temperature_command (max 2700 (min k 6500)).toNat
        ++ [xorReduce (create_color_temperature_command (max 2700 (min k 6500)).toNat)],
      ?_, ?_, ?_, ?_, ?_, ?_, ?_, ?_⟩
    · show ble_get_payload _ = _
      rw [hk']
      exact ble_get_payload_color_temperature _
    · simp [create_color_temperature_command]
    · simp [create_color_temperature_command]
    · simp [create_color_temperature_command]
    · simp [create_color_temperature_command]
    · simp [create_color_temperature_command]
    · simp [create_color_temperature_command]
    · exact Nat.div_add_mod _ 256
  · by_cases hc : 2000 ≤ k ∧ k ≤ 6500
    · simp only [create_color_temperature_request, if_pos hc,
        ble_get_payload_color_temperature, Option.isSome_some]
      tauto
    · simp only [create_color_temperature_request, if_neg hc, Option.isSome_none]
      simpa using hc

theorem send_request_from_eval {E : Type} (attempt : ℕ → Except Unit E) :
    send_request_from attempt 0 =
      match attempt 0 with
      | .ok e => (some e, 1)
      | .error _ =>
        match attempt 1 with
        | .ok e => (some e, 2)
        | .error _ => (none, 2) := by
  rw [send_request_from]
  cases attempt 0 with
  | ok e => simp [MAX_SEND_RETRIES]
  | error u =>
    rw [if_pos (by norm_num [MAX_SEND_RETRIES]), send_request_from]
    cases attempt 1 with
    | ok e => simp [MAX_SEND_RETRIES]
    | error u =>
      rw [if_pos (by norm_num [MAX_SEND_RETRIES]), send_request_from]
      simp [MAX_SEND_RETRIES]

/-- C6 fails as stated: when every attempt raises a transport
(`BleakError`) error, the `while` loop of `BleClient.send_request` is
exhausted and the function falls off its end, returning Python `None` —
a silent non-result, not a typed failure surfaced to the caller. -/
theorem C6_counterexample :
    send_request (E := ℕ) (fun _ => .error ()) = none := by
  rw [send_request, send_request_from_eval]

/-- C6 (amended): `send_request` makes at most `MAX_SEND_RETRIES = 2`
attempts; if every attempt within the first 2 raises `BleakError` it
returns `None` (a silent non-result rather than a typed failure); if
some attempt within the first 2 succeeds, it returns that attempt's
`ResponseEvent` after exactly that many attempts. -/
theorem C6_send_retry (E : Type) (attempt : ℕ → Except Unit E) :
    send_request_attempts attempt ≤ MAX_SEND_RETRIES ∧
    ((∀ i, i < MAX_SEND_RETRIES → attempt i = .error ()) →
      send_request attempt = none) ∧
    (∀ k e, k < MAX_SEND_RETRIES → (∀ i, i < k → attempt i = .error ()) →
      attempt k = .ok e →
      send_request attempt = some e ∧ send_request_attempts attempt = k + 1) := by
  refine ⟨?_, ?_, ?_⟩
  · rw [send_request_attempts, send_request_from_eval]
    cases h0 : attempt 0 with
    | ok e => simp [MAX_SEND_RETRIES]
    | error u =>
      cases h1 : attempt 1 with
      | ok e => simp [MAX_SEND_RETRIES]
      | error u => simp [MAX_SEND_RETRIES]
  · intro hall
    rw [send_request, send_request_from_eval]
    rw [hall 0 (by norm_num [MAX_SEND_RETRIES]), hall 1 (by norm_num [MAX_SEND_RETRIES])]
  · intro k e hk hfail hok
    have hk2 : k < 2 := by simpa [MAX_SEND_RETRIES] using hk
    interval_cases k
    · rw [send_request, send_request_attempts, send_request_from_eval, hok]
      exact ⟨rfl, rfl⟩
    · rw [send_request, send_request_attempts, send_request_from_eval,
        hfail 0 (by norm_num), hok]
      exact ⟨rfl, rfl⟩

theorem C6_witness :
    send_request (E := ℕ) (fun i => if i = 0 then .error () else .ok 7) = some 7 ∧
    send_request_attempts (fun i => if i = 0 then (.error () : Except Unit ℕ) else .ok 7)
        = 2 :=
  (C6_send_retry ℕ (fun i => if i = 0 then .error () else .ok 7)).2.2 1 7
    (by norm_num [MAX_SEND_RETRIES])
    (fun i hi => by
      have : i = 0 := by omega
      subst this
      rfl)
    rfl

theorem clamp255_nonneg (x : ℚ) : 0 ≤ clamp255 x := le_max_left _ _

theorem clamp255_le (x : ℚ) : clamp255 x ≤ 255 :=
  max_le (by norm_num) (min_le_right _ _)

theorem clamp255_of_mem {x : ℚ} (h0 : 0 ≤ x) (h255 : x ≤ 255) : clamp255 x = x := by
  rw [clamp255, min_eq_left h255, max_eq_right h0]

theorem ceil_clamp255_range (x : ℚ) : 0 ≤ ⌈clamp255 x⌉ ∧ ⌈clamp255 x⌉ ≤ 255 := by
  refine ⟨Int.ceil_nonneg (clamp255_nonneg x), Int.ceil_le.mpr ?_⟩
  exact (clamp255_le x).trans (by norm_num)

theorem trunc_clamp255_range (x : ℚ) :
    0 ≤ pyTrunc (clamp255 x) ∧ pyTrunc (clamp255 x) ≤ 255 := by
  rw [pyTrunc, if_pos (clamp255_nonneg x)]
  refine ⟨Int.floor_nonneg.mpr (clamp255_nonneg x), ?_⟩
  have h := Int.floor_le_floor (α := ℚ) (clamp255_le x)
  rwa [show ⌊(255 : ℚ)⌋ = 255 by
    rw [show (255 : ℚ) = ((255 : ℤ) : ℚ) by norm_num, Int.floor_intCast]] at h

/-- C9 (amended, range half): for every kelvin in `[2000, 6500]` and
whatever values the float `log` / power functions produce, every output
channel of both duplicated implementations lies within `[0, 255]` —
`kelvin_to_rgb` (clamp then round up) and the color math of
`kelvin_to_hex` (clamp then truncate). -/
theorem C9_kelvin_range (log : ℚ → ℚ) (rpow : ℚ → ℚ → ℚ) (kelvin : ℕ)
    (_h1 : 2000 ≤ kelvin) (_h2 : kelvin ≤ 6500) :
    (0 ≤ (kelvin_to_rgb log rpow kelvin).1 ∧ (kelvin_to_rgb log rpow kelvin).1 ≤ 255) ∧
    (0 ≤ (kelvin_to_rgb log rpow kelvin).2.1 ∧
      (kelvin_to_rgb log rpow kelvin).2.1 ≤ 255) ∧
    (0 ≤ (kelvin_to_rgb log rpow kelvin).2.2 ∧
      (kelvin_to_rgb log rpow kelvin).2.2 ≤ 255) ∧
    (0 ≤ (kelvin_to_hex_channels log rpow kelvin).1 ∧
      (kelvin_to_hex_channels log rpow kelvin).1 ≤ 255) ∧
    (0 ≤ (kelvin_to_hex_channels log rpow kelvin).2.1 ∧
      (kelvin_to_hex_channels log rpow kelvin).2.1 ≤ 255) ∧
    (0 ≤ (kelvin_to_hex_channels log rpow kelvin).2.2 ∧
      (kelvin_to_hex_channels log rpow kelvin).2.2 ≤ 255) :=
  ⟨ceil_clamp255_range _, ceil_clamp255_range _, ceil_clamp255_range _,
   trunc_clamp255_range _, trunc_clamp255_range _, trunc_clamp255_range _⟩

theorem C9_witness :
    (2000 : ℕ) ≤ 2700 ∧
    (0 ≤ (kelvin_to_rgb (fun _ => 3) (fun _ _ => 0) 2700).1 ∧
      (kelvin_to_rgb (fun _ => 3) (fun _ _ => 0) 2700).1 ≤ 255) ∧
    (0 ≤ (kelvin_to_rgb (fun _ => 3) (fun _ _ => 0) 2700).2.1 ∧
      (kelvin_to_rgb (fun _ => 3) (fun _ _ => 0) 2700).2.1 ≤ 255) ∧
    (0 ≤ (kelvin_to_rgb (fun _ => 3) (fun _ _ => 0) 2700).2.2 ∧
      (kelvin_to_rgb (fun _ => 3) (fun _ _ => 0) 2700).2.2 ≤ 255) ∧
    (0 ≤ (kelvin_to_hex_channels (fun _ => 3) (fun _ _ => 0) 2700).1 ∧
      (kelvin_to_hex_channels (fun _ => 3) (fun _ _ => 0) 2700).1 ≤ 255) ∧
    (0 ≤ (kelvin_to_hex_channels (fun _ => 3) (fun _ _ => 0) 2700).2.1 ∧
      (kelvin_to_hex_channels (fun _ => 3) (fun _ _ => 0) 2700).2.1 ≤ 255) ∧
    (0 ≤ (kelvin_to_hex_channels (fun _ => 3) (fun _ _ => 0) 2700).2.2 ∧
      (kelvin_to_hex_channels (fun _ => 3) (fun _ _ => 0) 2700).2.2 ≤ 255) :=
  ⟨by decide,
   C9_kelvin_range (fun _ => 3) (fun _ _ => 0) 2700 (by decide) (by decide)⟩

/-- Rational stand-ins for the float values `math.log(65)` and
`math.log(55)` reached at kelvin 6500 (accurate to about `1e-7`; the
channel values they induce are more than `0.04` away from the nearest
integer, so ceil/trunc below are those of the true float run). -/
def log9 : ℚ → ℚ := fun q => if q = 55 then 4007333 / 1000000 else 4174387 / 1000000

def rpow9 : ℚ → ℚ → ℚ := fun _ _ => 0

/-- C9 fails as stated in its "rounded up to the nearest integer …
holds for both duplicated implementations" part: at kelvin 6500 the
green and blue channels are fractional (≈ 254.11 and ≈ 250.04), and
`kelvin_to_hex` truncates them with `int(...)` where `kelvin_to_rgb`
rounds them up with `math.ceil`, so the two implementations disagree and
only the first matches the claimed clamp-then-round-up formula. -/
theorem C9_counterexample :
    kelvin_to_rgb log9 rpow9 6500 = (255, 255, 251) ∧
    kelvin_to_hex_channels log9 rpow9 6500 = (255, 254, 250) := by
  have hbb : blackBodyRaw log9 rpow9 6500 =
      (255, 99.4708025861 * (4174387 / 1000000) - 161.1195681661,
       138.5177312231 * (4007333 / 1000000) - 305.0447927307) := by
    rw [blackBodyRaw]
    norm_num [log9]
  have hG0 : (0 : ℚ) ≤ 99.4708025861 * (4174387 / 1000000) - 161.1195681661 := by
    norm_num
  have hG255 : (99.4708025861 * (4174387 / 1000000) - 161.1195681661 : ℚ) ≤ 255 := by
    norm_num
  have hB0 : (0 : ℚ) ≤ 138.5177312231 * (4007333 / 1000000) - 305.0447927307 := by
    norm_num
  have hB255 : (138.5177312231 * (4007333 / 1000000) - 305.0447927307 : ℚ) ≤ 255 := by
    norm_num
  have hc255 : clamp255 255 = 255 := clamp255_of_mem (by norm_num) (by norm_num)
  have hceil255 : ⌈(255 : ℚ)⌉ = 255 := by
    rw [show (255 : ℚ) = ((255 : ℤ) : ℚ) by norm_num, Int.ceil_intCast]
  have hfloor255 : ⌊(255 : ℚ)⌋ = 255 := by
    rw [show (255 : ℚ) = ((255 : ℤ) : ℚ) by norm_num, Int.floor_intCast]
  have hceilG : ⌈(99.4708025861 * (4174387 / 1000000) - 161.1195681661 : ℚ)⌉ = 255 := by
    rw [Int.ceil_eq_iff]
    constructor <;> norm_num
  have hfloorG : ⌊(99.4708025861 * (4174387 / 1000000) - 161.1195681661 : ℚ)⌋ = 254 := by
    rw [Int.floor_eq_iff]
    constructor <;> norm_num
  have hceilB : ⌈(138.5177312231 * (4007333 / 1000000) - 305.0447927307 : ℚ)⌉ = 251 := by
    rw [Int.ceil_eq_iff]
    constructor <;> norm_num
  have hfloorB : ⌊(138.5177312231 * (4007333 / 1000000) - 305.0447927307 : ℚ)⌋ = 250 := by
    rw [Int.floor_eq_iff]
    constructor <;> norm_num
  constructor
  · show (⌈clamp255 (blackBodyRaw log9 rpow9 6500).1⌉,
        ⌈clamp255 (blackBodyRaw log9 rpow9 6500).2.1⌉,
        ⌈clamp255 (blackBodyRaw log9 rpow9 6500).2.2⌉) = (255, 255, 251)
    rw [hbb, clamp255_of_mem hG0 hG255, clamp255_of_mem hB0 hB255, hc255,
      hceil255, hceilG, hceilB]
  · show (pyTrunc (clamp255 (blackBodyRaw log9 rpow9 6500).1),
        pyTrunc (clamp255 (blackBodyRaw log9 rpow9 6500).2.1),
        pyTrunc (clamp255 (blackBodyRaw log9 rpow9 6500).2.2)) = (255, 254, 250)
    rw [hbb, clamp255_of_mem hG0 hG255, clamp255_of_mem hB0 hB255, hc255]
    rw [pyTrunc, if_pos (by norm_num : (0:ℚ) ≤ 255), hfloor255]
    rw [pyTrunc, if_pos hG0, hfloorG]
    rw [pyTrunc, if_pos hB0, hfloorB]

theorem findCharacteristic_eq_none (writeChar : String) (cs : List BleCharacteristic)
    (h : ∀ c ∈ cs, c.uuid ≠ writeChar) : findCharacteristic writeChar cs = none := by
  induction cs with
  | nil => rfl
  | cons c cs ih =>
    rw [findCharacteristic, if_neg (h c (List.mem_cons_self c cs))]
    exact ih fun c' hc' => h c' (List.mem_cons_of_mem c hc')

/-- C10: when no service carries the Govee service UUID, or the
service(s) that do carry it have no characteristic with the Govee
write-characteristic UUID, both lookup loops fall off their end and
return `None` (and the controller leaves its cache empty) instead of
raising or returning a NotFound error. -/
theorem C10_write_characteristic_none (writeChar : String) (services : List BleService)
    (h : ∀ s ∈ services, s.uuid ≠ GOVEE_SERVICE_UUID ∨
      ∀ c ∈ s.characteristics, c.uuid ≠ writeChar) :
    ble_get_write_characteristic GOVEE_SERVICE_UUID writeChar services = none ∧
    controller_get_write_characteristic writeChar none services = (none, none) := by
  have hmain : ble_get_write_characteristic GOVEE_SERVICE_UUID writeChar services
      = none := by
    induction services with
    | nil => rfl
    | cons s rest ih =>
      have hrest : ble_get_write_characteristic GOVEE_SERVICE_UUID writeChar rest
          = none := ih fun s' hs' => h s' (List.mem_cons_of_mem s hs')
      rw [ble_get_write_characteristic]
      rcases h s (List.mem_cons_self s rest) with hne | hchars
      · rw [if_neg (fun hequiv => hne hequiv)]
        exact hrest
      · by_cases hs : s.uuid = GOVEE_SERVICE_UUID
        · rw [if_pos hs, findCharacteristic_eq_none writeChar s.characteristics hchars]
          exact hrest
        · rw [if_neg hs]
          exact hrest
  exact ⟨hmain, by rw [controller_get_write_characteristic, hmain]⟩

theorem C10_witness :
    ble_get_write_characteristic GOVEE_SERVICE_UUID "govee-write"
        [⟨"other-service", [⟨"govee-write"⟩]⟩, ⟨GOVEE_SERVICE_UUID, [⟨"not-write"⟩]⟩]
      = none ∧
    controller_get_write_characteristic "govee-write" none
        [⟨"other-service", [⟨"govee-write"⟩]⟩, ⟨GOVEE_SERVICE_UUID, [⟨"not-write"⟩]⟩]
      = (none, none) :=
  C10_write_characteristic_none "govee-write"
    [⟨"other-service", [⟨"govee-write"⟩]⟩, ⟨GOVEE_SERVICE_UUID, [⟨"not-write"⟩]⟩]
    (by decide)

end Govee
